import Mathlib

/-!
# Verification of the `norm-my-py` checker (`src/main.py`)

A shallow embedding of the Python norminette in `src/main.py`:

* `NormError` embeds the `NormError` dataclass.
* `Node` embeds the part of the Python `ast` node hierarchy the checker
  inspects (`FunctionDef`, `AsyncFunctionDef`, `ClassDef`, and a catch-all
  for every other node kind).  Each node stores the result of
  `ast.get_docstring` for it as a field, together with its child nodes.
* `walk` embeds `ast.walk` (breadth-first traversal).
* `typeHintErrorsOfNode` / `check_type_hints` embed
  `PythonNorminette._check_type_hints`, `docstringErrorsOfNode` /
  `check_docstrings` embed `PythonNorminette._check_docstrings`.
* `check_flake8` embeds `PythonNorminette._check_flake8`, including the
  Python string-splitting and `int()` conversions of its output parser
  and the `except` clauses (warnings are returned as a list of strings).
* `check_file` embeds `PythonNorminette.check_file`; the outcome of
  `open`+`ast.parse` and of the `flake8` subprocess are inputs
  (`ParseResult`, `Flake8Outcome`), as they depend on the environment.
* `sortFindings` embeds the per-file `sorted(..., key=lambda x: (x.line, x.col))`
  of `PythonNorminette.print_errors` (Python's `sorted` is stable; a stable
  sort is modelled by insertion sort, which produces the identical list).
* `runModel` embeds the aggregation and exit-code logic of
  `PythonNorminette.run`, with the resolved path arguments as input.
-/

namespace NormMyPy

/-- Embeds the `NormError` dataclass: file, line, col, code, message,
severity (severity defaults to `"Error"`). Lines/columns are Python `int`s,
hence `Int`. -/
structure NormError where
  file : String
  line : Int
  col : Int
  code : String
  message : String
  severity : String := "Error"
deriving Repr, DecidableEq

/-- One entry of `ast.arguments.args` (or the other argument lists): the
argument name and whether it carries an annotation (`arg.annotation`; the
checker only tests `is None`, so the annotation payload is irrelevant). -/
structure PyArg where
  arg : String
  annotation : Option Unit
deriving Repr, DecidableEq

/-- Embeds `ast.arguments`: positional-only args, plain positional args,
`*args`, keyword-only args, `**kwargs`. -/
structure PyArguments where
  posonlyargs : List PyArg
  args : List PyArg
  vararg : Option PyArg
  kwonlyargs : List PyArg
  kwarg : Option PyArg
deriving Repr, DecidableEq

/-- The node kinds of the Python AST that the checker distinguishes.
`docstring` stores the value of `ast.get_docstring node` (`none` when the
node has no docstring as its first statement), and `body` the child
nodes, so `walk` can traverse the tree like `ast.walk` does.
`AsyncFunctionDef` is a separate class in `ast`, not a subclass of
`FunctionDef`, so `isinstance(node, ast.FunctionDef)` is false for it;
the embedding keeps it as a separate constructor. -/
inductive Node where
  | functionDef (name : String) (lineno colOffset : Int) (args : PyArguments)
      (returns : Option Unit) (docstring : Option String) (body : List Node)
  | asyncFunctionDef (name : String) (lineno colOffset : Int) (args : PyArguments)
      (returns : Option Unit) (docstring : Option String) (body : List Node)
  | classDef (name : String) (lineno colOffset : Int)
      (docstring : Option String) (body : List Node)
  | otherNode (children : List Node)

/-- The child nodes of a node (what `ast.walk` appends to its queue). -/
def Node.children : Node → List Node
  | .functionDef _ _ _ _ _ _ b => b
  | .asyncFunctionDef _ _ _ _ _ _ b => b
  | .classDef _ _ _ _ b => b
  | .otherNode b => b

theorem Node.sizeOf_children_lt (n : Node) : sizeOf n.children < sizeOf n := by
  cases n <;> simp [Node.children]

theorem sizeOf_append_nodes (l₁ l₂ : List Node) :
    sizeOf (l₁ ++ l₂) + 1 = sizeOf l₁ + sizeOf l₂ := by
  induction l₁ with
  | nil => simp only [List.nil_append, List.nil.sizeOf_spec]; omega
  | cons a t ih => simp only [List.cons_append, List.cons.sizeOf_spec]; omega

/-- Embeds `ast.walk`: breadth-first traversal, popping the front of the
queue and appending the popped node's children. -/
def walk : List Node → List Node
  | [] => []
  | n :: rest => n :: walk (rest ++ n.children)
termination_by l => sizeOf l
decreasing_by
  simp only [List.cons.sizeOf_spec]
  have h1 := sizeOf_append_nodes rest n.children
  have h2 := Node.sizeOf_children_lt n
  omega

/-- `node.name.startswith('__') and node.name.endswith('__')`: the first
two characters are underscores and so are the last two (stated over the
character list). -/
def isDunder (name : String) : Bool :=
  (name.toList.take 2 == ['_', '_']) && (name.toList.reverse.take 2 == ['_', '_'])

/-- The f-string `f"Function '{node.name}' missing return type hint"`. -/
def retHintMsg (name : String) : String :=
  "Function '" ++ name ++ "' missing return type hint"

/-- The f-string `f"Argument '{arg.arg}' in function '{node.name}' missing type hint"`. -/
def argHintMsg (arg fn : String) : String :=
  "Argument '" ++ arg ++ "' in function '" ++ fn ++ "' missing type hint"

/-- The `for arg in node.args.args:` loop of `_check_type_hints`:
skip `self`/`cls` by name, report each remaining argument without an
annotation at the function's own line/column. -/
def argErrors (fp fn : String) (l c : Int) : List PyArg → List NormError
  | [] => []
  | a :: rest =>
    if a.arg == "self" || a.arg == "cls" then argErrors fp fn l c rest
    else if a.annotation.isNone then
      ⟨fp, l, c, "TYPE_HINT", argHintMsg a.arg fn, "Error"⟩ :: argErrors fp fn l c rest
    else argErrors fp fn l c rest

/-- The per-node body of the `ast.walk` loop in `_check_type_hints`:
only `FunctionDef` nodes are examined (`isinstance(node, ast.FunctionDef)`),
dunder names are skipped entirely, a missing return annotation yields one
finding, then the positional argument loop runs. -/
def typeHintErrorsOfNode (fp : String) : Node → List NormError
  | .functionDef name l c args returns _ _ =>
    if isDunder name then []
    else
      (match returns with
        | none => [⟨fp, l, c, "TYPE_HINT", retHintMsg name, "Error"⟩]
        | some _ => []) ++ argErrors fp name l c args.args
  | _ => []

/-- Embeds `PythonNorminette._check_type_hints`. -/
def check_type_hints (tree : Node) (fp : String) : List NormError :=
  (walk [tree]).flatMap (typeHintErrorsOfNode fp)

/-- `not ast.get_docstring(node)` — Python truthiness: `None` and the
empty string are both falsy. -/
def docstringMissing : Option String → Bool
  | none => true
  | some s => s.isEmpty

/-- The per-node body of the `ast.walk` loop in `_check_docstrings`:
classes are always checked; `FunctionDef`s are skipped when dunder-named
and not `__init__`; `AsyncFunctionDef` matches neither `isinstance` test. -/
def docstringErrorsOfNode (fp : String) : Node → List NormError
  | .classDef name l c ds _ =>
    if docstringMissing ds then
      [⟨fp, l, c, "DOCSTRING", "Class '" ++ name ++ "' missing docstring", "Error"⟩]
    else []
  | .functionDef name l c _ _ ds _ =>
    if isDunder name && name != "__init__" then []
    else if docstringMissing ds then
      [⟨fp, l, c, "DOCSTRING", "Function '" ++ name ++ "' missing docstring", "Error"⟩]
    else []
  | _ => []

/-- Embeds `PythonNorminette._check_docstrings`. -/
def check_docstrings (tree : Node) (fp : String) : List NormError :=
  (walk [tree]).flatMap (docstringErrorsOfNode fp)

/-! ### Python string primitives used by `_check_flake8` -/

/-- The ASCII whitespace characters stripped by Python's `str.strip()`. -/
def isPySpace (c : Char) : Bool :=
  c = ' ' || c = '\t' || c = '\n' || c = '\r' || c = Char.ofNat 11 || c = Char.ofNat 12

/-- Python `str.strip()` (no argument): drop whitespace from both ends. -/
def pyStrip (s : String) : String :=
  String.mk (((s.toList.dropWhile isPySpace).reverse.dropWhile isPySpace).reverse)

/-- Worker for Python `str.split(sep, maxsplit)` with a one-character
separator: split on each occurrence of `sep`, at most `maxsplit` times
(`none` = unlimited), keeping empty pieces. -/
def pySplitAux (sep : Char) : Option Nat → List Char → List Char → List (List Char)
  | _, [], cur => [cur.reverse]
  | maxsplit, c :: rest, cur =>
    if c = sep ∧ maxsplit ≠ some 0 then
      cur.reverse :: pySplitAux sep (maxsplit.map (· - 1)) rest []
    else
      pySplitAux sep maxsplit rest (c :: cur)

/-- Python `str.split(sep, maxsplit)` for a one-character separator
(so `"".split(sep) == ['']`). -/
def pySplit (sep : Char) (maxsplit : Option Nat) (s : String) : List String :=
  (pySplitAux sep maxsplit s.toList []).map String.mk

/-- A run of decimal digits as Python `int()` accepts it: nonempty,
underscores allowed only between digits.  Returns the digits with the
underscores removed. -/
def pyDigits : List Char → Option (List Char)
  | [] => none
  | [c] => if c.isDigit then some [c] else none
  | c :: '_' :: rest2 => if c.isDigit then (pyDigits rest2).map (c :: ·) else none
  | c :: rest => if c.isDigit then (pyDigits rest).map (c :: ·) else none

/-- Numeric value of a list of decimal digits. -/
def digitsVal (ds : List Char) : Nat :=
  ds.foldl (fun n c => 10 * n + (c.toNat - 48)) 0

/-- Python `int(s)` for a string argument: strip whitespace, optional
sign, decimal digits.  `none` models the `ValueError` it raises on any
other input. -/
def pyInt? (s : String) : Option Int :=
  match (pyStrip s).toList with
  | '+' :: rest => (pyDigits rest).map (fun ds => (digitsVal ds : Int))
  | '-' :: rest => (pyDigits rest).map (fun ds => -(digitsVal ds : Int))
  | cs => (pyDigits cs).map (fun ds => (digitsVal ds : Int))

/-! ### The flake8 adapter (`_check_flake8`) -/

/-- The message of the `ValueError` raised by `int()` on a bad literal. -/
def valueErrorMsg (s : String) : String :=
  "invalid literal for int() with base 10: '" ++ s ++ "'"

/-- The body of the `for line in result.stdout.strip().split('\n'):` loop
of `_check_flake8` for one line: `.ok none` when the line is skipped
(empty, or fewer than 4 colon-separated parts), `.ok (some f)` when a
finding is appended, `.error msg` when `int()` raises `ValueError`. -/
def parseFlake8Line (line : String) : Except String (Option NormError) :=
  if line.isEmpty then .ok none
  else
    let parts := pySplit ':' (some 3) line
    if parts.length ≥ 4 then
      let file_path := parts.getD 0 ""
      match pyInt? (parts.getD 1 "") with
      | none => .error (valueErrorMsg (parts.getD 1 ""))
      | some line_num =>
        match pyInt? (parts.getD 2 "") with
        | none => .error (valueErrorMsg (parts.getD 2 ""))
        | some col_num =>
          let msg_parts := pySplit ' ' (some 1) (pyStrip (parts.getD 3 ""))
          let code := msg_parts.getD 0 ""
          let message := msg_parts.getD 1 ""
          .ok (some ⟨file_path, line_num, col_num, code, message, "Error"⟩)
    else .ok none

/-- The loop of `_check_flake8` over the output lines, with Python
exception semantics: a raised `ValueError` escapes the loop (the findings
appended so far are kept) and is reported as the loop's outcome. -/
def processLines : List String → List NormError → List NormError × Option String
  | [], acc => (acc, none)
  | l :: ls, acc =>
    match parseFlake8Line l with
    | .error e => (acc, some e)
    | .ok none => processLines ls acc
    | .ok (some f) => processLines ls (acc ++ [f])

/-- The outcome of `subprocess.run(['flake8', ...])` for one file:
the binary is absent (`FileNotFoundError`), the invocation raised some
other exception, or it completed with the given captured stdout. -/
inductive Flake8Outcome where
  | fileNotFound
  | invokeError (msg : String)
  | output (stdout : String)

/-- The fixed warning printed when flake8 is not installed. -/
def flake8MissingWarn : String :=
  "Warning: flake8 not installed. Install with: pip install flake8"

/-- The warning `f"Warning: flake8 check failed: {e}"`. -/
def flake8FailedWarn (e : String) : String :=
  "Warning: flake8 check failed: " ++ e

/-- Embeds `PythonNorminette._check_flake8`: returns the list of findings
the function returns together with the console warnings it prints
(the colour escape codes around the warnings are omitted). -/
def check_flake8 : Flake8Outcome → List NormError × List String
  | .fileNotFound => ([], [flake8MissingWarn])
  | .invokeError m => ([], [flake8FailedWarn m])
  | .output stdout =>
    if stdout.isEmpty then ([], [])
    else
      match processLines (pySplit '\n' none (pyStrip stdout)) [] with
      | (errs, none) => (errs, [])
      | (errs, some e) => (errs, [flake8FailedWarn e])

/-- Whether a flake8 output line is processed without raising
(declarative view of one loop iteration, used to characterise the loop). -/
def lineOk (l : String) : Bool :=
  match parseFlake8Line l with
  | .error _ => false
  | .ok _ => true

/-- The findings one flake8 output line contributes when it does not raise. -/
def lineFindings (l : String) : List NormError :=
  match parseFlake8Line l with
  | .ok (some f) => [f]
  | _ => []

/-- The exception message a raising flake8 output line produces. -/
def lineErr (l : String) : String :=
  match parseFlake8Line l with
  | .error e => e
  | .ok _ => ""

/-! ### The checker (`check_file`) -/

/-- The outcome of `open(filepath).read()` + `ast.parse(content)`:
a parsed tree, a `SyntaxError` (with the parser's `msg`, `lineno` and
`offset`, either of which may be `None`), or any other exception. -/
inductive ParseResult where
  | ok (tree : Node)
  | syntaxError (msg : String) (lineno : Option Int) (offset : Option Int)
  | otherError (msg : String)

/-- Python `x or 0` for `e.lineno` / `e.offset`: `None` (and `0` itself)
becomes `0`. -/
def intOr0 : Option Int → Int
  | none => 0
  | some v => v

/-- Embeds `PythonNorminette.check_file`: on a successful parse the three
checks run and their findings are concatenated in order (type hints,
docstrings, flake8); a `SyntaxError` or any other exception short-circuits
with a single finding. -/
def check_file (fp : String) (pr : ParseResult) (oc : Flake8Outcome) : List NormError :=
  match pr with
  | .ok tree =>
    check_type_hints tree fp ++ check_docstrings tree fp ++ (check_flake8 oc).1
  | .syntaxError m l o =>
    [⟨fp, intOr0 l, intOr0 o, "SYNTAX", "Syntax error: " ++ m, "Error"⟩]
  | .otherError m =>
    [⟨fp, 0, 0, "FATAL", "Cannot check file: " ++ m, "Error"⟩]

/-! ### The reporter (`print_errors`) -/

/-- The sort key comparison used by
`sorted(file_errors, key=lambda x: (x.line, x.col))`: lexicographic
order on the pair `(line, col)`. -/
def keyLe (a b : NormError) : Prop :=
  a.line < b.line ∨ (a.line = b.line ∧ a.col ≤ b.col)

instance : DecidableRel keyLe := fun a b => by
  unfold keyLe; exact inferInstance

instance : IsTotal NormError keyLe :=
  ⟨fun a b => by unfold keyLe; omega⟩

instance : IsTrans NormError keyLe :=
  ⟨fun a b c => by unfold keyLe; omega⟩

/-- The per-file `sorted(file_errors, key=lambda x: (x.line, x.col))` of
`print_errors`.  Python's `sorted` is a stable sort; every stable sort of
a list under the same total preorder produces the same list, so it is
modelled by insertion sort (Mathlib's `List.insertionSort` is stable). -/
def sortFindings (l : List NormError) : List NormError :=
  l.insertionSort keyLe

/-- The grouping loop of `print_errors`: a Python `dict` keyed by
`error.file` preserves first-seen key order, and each value list keeps
the order in which errors were appended. -/
def groupByFile (l : List NormError) : List (String × List NormError) :=
  l.foldl
    (fun acc e =>
      if acc.any (fun g => g.1 == e.file) then
        acc.map (fun g => if g.1 == e.file then (g.1, g.2 ++ [e]) else g)
      else acc ++ [(e.file, [e])])
    []

/-! ### The runner (`run`) -/

/-- The environment of one file on disk, as far as `check_file` consumes
it: its path, the outcome of reading+parsing it, and the outcome of the
flake8 subprocess on it. -/
structure FileEnv where
  path : String
  parse : ParseResult
  flake : Flake8Outcome

/-- `check_file` applied to a file environment. -/
def check_fileEnv (f : FileEnv) : List NormError :=
  check_file f.path f.parse f.flake

/-- One resolved command-line path argument, as `Path` classifies it:
an existing regular file, an existing directory (with the `.py` files
`rglob('*.py')` yields beneath it, in traversal order), or neither. -/
inductive PathArg where
  | file (f : FileEnv)
  | dir (pyFiles : List FileEnv)
  | missing

/-- `pathlib.PurePath.suffix`: the extension of the final path component
(`name[i:]` for the last `'.'` at index `i` with `0 < i < len(name)-1`,
else the empty string). -/
def pathSuffix (p : String) : String :=
  let name := ((p.splitOn "/").getLastD "").toList
  match (List.range name.length).filter (fun i => name.getD i ' ' = '.') with
  | [] => ""
  | idxs =>
    let i := idxs.getLastD 0
    if 0 < i ∧ i < name.length - 1 then String.mk (name.drop i) else ""

/-- One iteration of the `for path_str in paths:` loop of `run`,
carried over `(all_errors, files_checked)`. -/
def runStep (acc : List NormError × Nat) (p : PathArg) : List NormError × Nat :=
  match p with
  | .file f =>
    if pathSuffix f.path = ".py" then (acc.1 ++ check_fileEnv f, acc.2 + 1) else acc
  | .dir fs => fs.foldl (fun a f => (a.1 ++ check_fileEnv f, a.2 + 1)) acc
  | .missing => acc

/-- Embeds `PythonNorminette.run`: walk the path arguments, check each
eligible file, then return
`(exit code, files_checked, total_errors)` where the exit code is `0`
when `total_errors == 0` and `1` otherwise. -/
def runModel (paths : List PathArg) : Nat × Nat × Nat :=
  let r := paths.foldl runStep ([], 0)
  (if r.1.length = 0 then 0 else 1, r.2, r.1.length)

/-- The files `run` actually passes to `check_file`: eligible regular
files and every `.py` file found under a directory argument. -/
def checkedFiles (paths : List PathArg) : List FileEnv :=
  paths.flatMap fun p =>
    match p with
    | .file f => if pathSuffix f.path = ".py" then [f] else []
    | .dir fs => fs
    | .missing => []

/-! ### Helper lemmas -/

theorem string_data_append (s t : String) : (s ++ t).data = s.data ++ t.data := rfl

theorem retHintMsg_ne_argHintMsg (n a f : String) : retHintMsg n ≠ argHintMsg a f := by
  unfold retHintMsg argHintMsg
  intro h
  have h2 := congrArg String.data h
  simp only [string_data_append] at h2
  simp only [List.cons_append, List.cons.injEq] at h2
  exact absurd h2.1 (by decide)

theorem argErrors_countP_ret (fp fn : String) (l c : Int) (as : List PyArg) :
    (argErrors fp fn l c as).countP (fun e => e.message == retHintMsg fn) = 0 := by
  induction as with
  | nil => rfl
  | cons a rest ih =>
    unfold argErrors
    split
    · exact ih
    · split
      · simp only [List.countP_cons, ih]
        have hne : (argHintMsg a.arg fn == retHintMsg fn) = false := by
          simp only [beq_eq_false_iff_ne, ne_eq]
          exact fun hh => retHintMsg_ne_argHintMsg fn a.arg fn hh.symm
        simp [hne]
      · exact ih

theorem argErrors_eq_filter_map (fp fn : String) (l c : Int) (as : List PyArg) :
    argErrors fp fn l c as =
      (as.filter (fun a => !(a.arg == "self" || a.arg == "cls") && a.annotation.isNone)).map
        (fun a => ⟨fp, l, c, "TYPE_HINT", argHintMsg a.arg fn, "Error"⟩) := by
  induction as with
  | nil => rfl
  | cons a rest ih =>
    unfold argErrors
    split
    · next h1 =>
        simp only [Bool.or_eq_true, beq_iff_eq] at h1
        rcases h1 with h | h <;> simp [List.filter_cons, h, ih]
    · next h1 =>
        simp only [Bool.or_eq_true, beq_iff_eq, not_or] at h1
        split
        · next h2 =>
            rw [Option.isNone_iff_eq_none] at h2
            simp [List.filter_cons, h1.1, h1.2, h2, ih]
        · next h2 =>
            rw [Option.isNone_iff_eq_none] at h2
            simp [List.filter_cons, h1.1, h1.2, h2, ih]

theorem filter_orderedInsert_key (p : NormError → Bool)
    (hp : ∀ x y, p x = true → p y = true → keyLe x y)
    (a : NormError) (l : List NormError) :
    (l.orderedInsert keyLe a).filter p =
      if p a then a :: l.filter p else l.filter p := by
  induction l with
  | nil =>
    cases hpa : p a <;> simp [List.orderedInsert, List.filter_cons, hpa]
  | cons b t ih =>
    rw [List.orderedInsert]
    split
    · next hle =>
        cases hpa : p a <;> simp [List.filter_cons, hpa]
    · next hnle =>
        rw [List.filter_cons]
        cases hpb : p b
        · simp [hpb, ih]
        · have hpa : p a = false := by
            cases hpa2 : p a
            · rfl
            · exact absurd (hp a b hpa2 hpb) hnle
          simp [hpb, hpa, ih]

theorem filter_insertionSort_key (p : NormError → Bool)
    (hp : ∀ x y, p x = true → p y = true → keyLe x y)
    (l : List NormError) :
    (l.insertionSort keyLe).filter p = l.filter p := by
  induction l with
  | nil => rfl
  | cons a t ih =>
    rw [List.insertionSort, filter_orderedInsert_key p hp, ih, List.filter_cons]

theorem keyP_implies_keyLe (ln cl : Int) (x y : NormError)
    (hx : (x.line == ln && x.col == cl) = true) (hy : (y.line == ln && y.col == cl) = true) :
    keyLe x y := by
  simp only [Bool.and_eq_true, beq_iff_eq] at hx hy
  unfold keyLe
  omega

theorem dir_foldl_spec (fs : List FileEnv) (acc : List NormError × Nat) :
    fs.foldl (fun a f => (a.1 ++ check_fileEnv f, a.2 + 1)) acc =
      (acc.1 ++ fs.flatMap check_fileEnv, acc.2 + fs.length) := by
  induction fs generalizing acc with
  | nil => simp
  | cons f t ih =>
    rw [List.foldl_cons, ih]
    simp [List.flatMap_cons, List.append_assoc] <;> omega

theorem run_foldl_spec (paths : List PathArg) (acc : List NormError × Nat) :
    paths.foldl runStep acc =
      (acc.1 ++ (checkedFiles paths).flatMap check_fileEnv,
       acc.2 + (checkedFiles paths).length) := by
  induction paths generalizing acc with
  | nil => simp [checkedFiles]
  | cons p t ih =>
    rw [List.foldl_cons, ih]
    cases p with
    | file f =>
      by_cases h : pathSuffix f.path = ".py" <;>
        simp [runStep, checkedFiles, h, List.flatMap_cons, List.append_assoc] <;> omega
    | dir fs =>
      rw [show runStep acc (.dir fs) = fs.foldl (fun a f => (a.1 ++ check_fileEnv f, a.2 + 1)) acc from rfl,
          dir_foldl_spec]
      simp [checkedFiles, List.flatMap_cons, List.append_assoc] <;> omega
    | missing =>
      simp [runStep, checkedFiles, List.flatMap_cons]

theorem processLines_spec (lines : List String) (acc : List NormError) :
    processLines lines acc =
      (acc ++ (lines.takeWhile lineOk).flatMap lineFindings,
       match lines.dropWhile lineOk with
       | [] => none
       | l :: _ => some (lineErr l)) := by
  induction lines generalizing acc with
  | nil => simp [processLines]
  | cons l ls ih =>
    rw [processLines]
    cases h : parseFlake8Line l with
    | error e =>
      simp [List.takeWhile_cons, List.dropWhile_cons, lineOk, lineErr, h]
    | ok o =>
      cases o with
      | none =>
        rw [ih]
        simp [List.takeWhile_cons, List.dropWhile_cons, lineOk, lineFindings, h]
      | some f =>
        change processLines ls (acc ++ [f]) = _
        rw [ih]
        simp [List.takeWhile_cons, List.dropWhile_cons, lineOk, lineFindings, h,
          List.append_assoc, List.singleton_append]

/-! ### Claim theorems -/

/-- Claim C1: `run` returns exit code 0 if and only if the aggregate
finding count across all checked files is exactly 0, and returns 1
otherwise. -/
theorem run_exit_iff_no_findings (paths : List PathArg) :
    ((runModel paths).1 = 0 ↔
      ((checkedFiles paths).map (fun f => (check_fileEnv f).length)).sum = 0) ∧
    ((runModel paths).1 = 1 ↔
      ((checkedFiles paths).map (fun f => (check_fileEnv f).length)).sum ≠ 0) := by
  have h := run_foldl_spec paths ([], 0)
  unfold runModel
  rw [h]
  simp only [List.nil_append]
  have hlen : ((checkedFiles paths).flatMap check_fileEnv).length =
      ((checkedFiles paths).map (fun f => (check_fileEnv f).length)).sum := by
    induction checkedFiles paths with
    | nil => rfl
    | cons f t ih => simp [List.flatMap_cons, ih]
  simp only [hlen]
  by_cases hz : ((checkedFiles paths).map (fun f => (check_fileEnv f).length)).sum = 0 <;>
    simp [hz]

/-- Claim C2: a file whose content fails to parse with a syntax error
yields exactly one finding, code `SYNTAX`, message including the parser's
message, at the parser's reported line/column (defaulting to 0/0 when the
parser reports none), and no other findings — regardless of the file's
content or of the flake8 outcome. -/
theorem syntax_error_single_finding (fp m : String) (l o : Option Int)
    (oc : Flake8Outcome) :
    check_file fp (.syntaxError m l o) oc =
      [⟨fp, intOr0 l, intOr0 o, "SYNTAX", "Syntax error: " ++ m, "Error"⟩] ∧
    (check_file fp (.syntaxError m l o) oc).length = 1 ∧
    check_file fp (.syntaxError m none none) oc =
      [⟨fp, 0, 0, "SYNTAX", "Syntax error: " ++ m, "Error"⟩] :=
  ⟨rfl, rfl, rfl⟩

/-- Claim C3: every non-dunder function definition with no return-type
annotation contributes exactly one `TYPE_HINT` finding whose message names
the function as missing its return hint, regardless of its parameters. -/
theorem missing_return_one_finding (fp name : String) (l c : Int) (args : PyArguments)
    (ds : Option String) (body : List Node) (hnd : isDunder name = false) :
    (typeHintErrorsOfNode fp (.functionDef name l c args none ds body)).countP
      (fun e => e.message == retHintMsg name) = 1 := by
  unfold typeHintErrorsOfNode
  simp only [hnd, Bool.false_eq_true, if_false, List.countP_append]
  rw [argErrors_countP_ret]
  simp [List.countP_cons]

/-- Witness for C3: a function with two unannotated parameters still yields
exactly one missing-return finding. -/
theorem missing_return_one_finding_witness :
    (typeHintErrorsOfNode "a.py"
      (.functionDef "f" 1 0 ⟨[], [⟨"x", none⟩, ⟨"y", none⟩], none, [], none⟩
        none none [])).countP (fun e => e.message == retHintMsg "f") = 1 :=
  missing_return_one_finding "a.py" "f" 1 0
    ⟨[], [⟨"x", none⟩, ⟨"y", none⟩], none, [], none⟩ none [] (by decide)

/-- Counterexample to C4 as stated: the claim says a parameter named
`self` in any position other than the first is not exempt, i.e. an
unannotated second parameter `self` should be flagged; the code skips
`self`/`cls` by name at every position, so `def f(a: int, self) -> ...:`
yields no findings at all. -/
theorem self_second_position_not_flagged :
    typeHintErrorsOfNode "a.py"
      (.functionDef "f" 1 0 ⟨[], [⟨"a", some ()⟩, ⟨"self", none⟩], none, [], none⟩
        (some ()) none []) = [] := by decide

/-- Claim C4 (amended): for every non-dunder function definition, the
type-hint check emits a `TYPE_HINT` finding — naming the parameter and the
enclosing function, at the function's declaration line/column — for every
unannotated positional parameter except any parameter named `self` or
`cls`, which are exempt by name in every position. -/
theorem self_cls_exempt_any_position (fp name : String) (l c : Int) (args : PyArguments)
    (ret : Option Unit) (ds : Option String) (body : List Node)
    (hnd : isDunder name = false) :
    typeHintErrorsOfNode fp (.functionDef name l c args ret ds body) =
      (match ret with
        | none => [⟨fp, l, c, "TYPE_HINT", retHintMsg name, "Error"⟩]
        | some _ => []) ++
      (args.args.filter (fun a => !(a.arg == "self" || a.arg == "cls") && a.annotation.isNone)).map
        (fun a => ⟨fp, l, c, "TYPE_HINT", argHintMsg a.arg name, "Error"⟩) := by
  unfold typeHintErrorsOfNode
  simp only [hnd, Bool.false_eq_true, if_false]
  rw [argErrors_eq_filter_map]

/-- Witness for the amended C4: `def g(x, self):` with a return annotation
yields exactly the finding for `x`. -/
theorem self_cls_exempt_any_position_witness :
    typeHintErrorsOfNode "a.py"
      (.functionDef "g" 2 0 ⟨[], [⟨"x", none⟩, ⟨"self", none⟩], none, [], none⟩
        (some ()) none []) =
      [⟨"a.py", 2, 0, "TYPE_HINT", argHintMsg "x" "g", "Error"⟩] := by
  rw [self_cls_exempt_any_position "a.py" "g" 2 0
    ⟨[], [⟨"x", none⟩, ⟨"self", none⟩], none, [], none⟩ (some ()) none [] (by decide)]
  decide

/-- Claim C5: a function whose name starts and ends with double
underscores is entirely exempt from the type-hint check: no finding for
its return annotation nor for any of its parameters. -/
theorem dunder_exempt_from_type_hints (fp name : String) (l c : Int) (args : PyArguments)
    (ret : Option Unit) (ds : Option String) (body : List Node)
    (hd : isDunder name = true) :
    typeHintErrorsOfNode fp (.functionDef name l c args ret ds body) = [] := by
  unfold typeHintErrorsOfNode
  simp [hd]

/-- Witness for C5: `__str__` with an unannotated parameter and no return
annotation yields no type-hint findings. -/
theorem dunder_exempt_from_type_hints_witness :
    typeHintErrorsOfNode "a.py"
      (.functionDef "__str__" 1 0 ⟨[], [⟨"x", none⟩], none, [], none⟩ none none []) = [] :=
  dunder_exempt_from_type_hints "a.py" "__str__" 1 0
    ⟨[], [⟨"x", none⟩], none, [], none⟩ none none [] (by decide)

/-- Claim C6: the docstring check emits a `DOCSTRING` finding at the
declaration for every class without a docstring, and for every function
without a docstring unless the function is a dunder other than
`__init__`: `__init__` and all non-dunder functions are checked, all
other dunders are exempt. -/
theorem docstring_rule (fp name : String) (l c : Int) :
    (∀ body, docstringErrorsOfNode fp (.classDef name l c none body) =
       [⟨fp, l, c, "DOCSTRING", "Class '" ++ name ++ "' missing docstring", "Error"⟩]) ∧
    (∀ args ret body, docstringErrorsOfNode fp (.functionDef name l c args ret none body) =
       if isDunder name && name != "__init__" then []
       else [⟨fp, l, c, "DOCSTRING", "Function '" ++ name ++ "' missing docstring", "Error"⟩]) ∧
    (name = "__init__" → ∀ args ret body,
       docstringErrorsOfNode fp (.functionDef name l c args ret none body) =
         [⟨fp, l, c, "DOCSTRING", "Function '" ++ name ++ "' missing docstring", "Error"⟩]) ∧
    (isDunder name = false → ∀ args ret body,
       docstringErrorsOfNode fp (.functionDef name l c args ret none body) =
         [⟨fp, l, c, "DOCSTRING", "Function '" ++ name ++ "' missing docstring", "Error"⟩]) := by
  refine ⟨fun body => rfl, fun args ret body => ?_,
    fun hin args ret body => ?_, fun hnd args ret body => ?_⟩
  · simp only [docstringErrorsOfNode]
    split <;> rfl
  · subst hin
    rfl
  · simp only [docstringErrorsOfNode, hnd, Bool.false_and, Bool.false_eq_true, if_false]
    rfl

/-- Witness for C6: a class without a docstring is flagged, and
`__init__` without a docstring is flagged despite being a dunder. -/
theorem docstring_rule_witness :
    docstringErrorsOfNode "a.py" (.classDef "C" 1 0 none []) =
      [⟨"a.py", 1, 0, "DOCSTRING", "Class 'C' missing docstring", "Error"⟩] ∧
    docstringErrorsOfNode "a.py"
      (.functionDef "__init__" 2 4 ⟨[], [], none, [], none⟩ none none []) =
      [⟨"a.py", 2, 4, "DOCSTRING", "Function '__init__' missing docstring", "Error"⟩] :=
  ⟨(docstring_rule "a.py" "C" 1 0).1 [],
   (docstring_rule "a.py" "__init__" 2 4).2.2.1 rfl ⟨[], [], none, [], none⟩ none []⟩

/-- Claim C7: the reporter renders a file's findings sorted by
(line ascending, column ascending), and findings with equal (line, column)
keep their insertion order, which by `check_file`'s concatenation is
type-hint findings, then docstring findings, then flake8 findings. -/
theorem findings_sorted_stable (fp : String) (tree : Node) (oc : Flake8Outcome) :
    List.Sorted keyLe (sortFindings (check_file fp (.ok tree) oc)) ∧
    ∀ ln cl : Int,
      (sortFindings (check_file fp (.ok tree) oc)).filter
          (fun e => e.line == ln && e.col == cl) =
        (check_type_hints tree fp).filter (fun e => e.line == ln && e.col == cl) ++
          (check_docstrings tree fp).filter (fun e => e.line == ln && e.col == cl) ++
          ((check_flake8 oc).1).filter (fun e => e.line == ln && e.col == cl) := by
  constructor
  · exact List.sorted_insertionSort keyLe _
  · intro ln cl
    rw [sortFindings, filter_insertionSort_key _ (keyP_implies_keyLe ln cl),
        show check_file fp (.ok tree) oc =
          check_type_hints tree fp ++ check_docstrings tree fp ++ (check_flake8 oc).1 from rfl,
        List.filter_append, List.filter_append]

/-- Counterexample to C8 as stated: a flake8 invocation whose output has a
parseable first line and a second line with a non-integer line number makes
the parsing fail (so a warning is logged), yet the adapter returns the
finding parsed from the first line — not zero findings. -/
theorem flake8_failure_nonzero_findings :
    (check_flake8 (.output "a.py:1:1: E1 first\nb.py:zz:1: E2 second")).2 ≠ [] ∧
    (check_flake8 (.output "a.py:1:1: E1 first\nb.py:zz:1: E2 second")).1 =
      [⟨"a.py", 1, 1, "E1", "first", "Error"⟩] := by
  constructor
  · decide
  · decide

/-- Claim C8 (amended): when invoking or parsing the output of flake8
fails with any failure other than the binary being absent, the adapter
catches the failure and logs a console warning, and returns the findings
parsed from the output lines before the failing line — zero findings when
the invocation itself fails, but possibly nonzero when the failure occurs
partway through parsing the output. -/
theorem flake8_failure_keeps_prior_findings :
    (∀ m, check_flake8 (.invokeError m) = ([], [flake8FailedWarn m])) ∧
    (∀ s, check_flake8 (.output s) =
       (((pySplit '\n' none (pyStrip s)).takeWhile lineOk).flatMap lineFindings,
        match (pySplit '\n' none (pyStrip s)).dropWhile lineOk with
        | [] => []
        | l :: _ => [flake8FailedWarn (lineErr l)])) := by
  refine ⟨fun m => rfl, fun s => ?_⟩
  by_cases hs : s.isEmpty
  · have hse : s = "" := by
      cases s with
      | mk data =>
        cases data with
        | nil => rfl
        | cons c cs =>
          exfalso
          have hpos := Char.utf8Size_pos c
          simp [String.isEmpty, String.Pos.ext_iff] at hs
          omega
    subst hse
    decide
  · rw [show check_flake8 (.output s) =
        (if s.isEmpty then ([], [])
         else
           match processLines (pySplit '\n' none (pyStrip s)) [] with
           | (errs, none) => (errs, [])
           | (errs, some e) => (errs, [flake8FailedWarn e])) from rfl,
        if_neg hs, processLines_spec]
    simp only [List.nil_append]
    cases hd : (pySplit '\n' none (pyStrip s)).dropWhile lineOk <;> simp [hd]

/-- Claim C9: parameters outside the plain positional list — keyword-only
parameters, `*args` and `**kwargs` — never influence the type-hint check:
its output is invariant under replacing them arbitrarily, so they never
produce a `TYPE_HINT` finding even when unannotated. -/
theorem nonpositional_params_never_flagged (fp name : String) (l c : Int)
    (p a : List PyArg) (v : Option PyArg) (k : List PyArg) (kw : Option PyArg)
    (v2 : Option PyArg) (k2 : List PyArg) (kw2 : Option PyArg)
    (ret : Option Unit) (ds : Option String) (body : List Node) :
    typeHintErrorsOfNode fp (.functionDef name l c ⟨p, a, v, k, kw⟩ ret ds body) =
      typeHintErrorsOfNode fp (.functionDef name l c ⟨p, a, v2, k2, kw2⟩ ret ds body) :=
  rfl

/-- Claim C10: async function definitions are invisible to both rule
checks: neither the type-hint check nor the docstring check emits any
finding for an `AsyncFunctionDef` node, regardless of missing annotations
or a missing docstring. -/
theorem async_defs_invisible (fp name : String) (l c : Int) (args : PyArguments)
    (ret : Option Unit) (ds : Option String) (body : List Node) :
    typeHintErrorsOfNode fp (.asyncFunctionDef name l c args ret ds body) = [] ∧
    docstringErrorsOfNode fp (.asyncFunctionDef name l c args ret ds body) = [] :=
  ⟨rfl, rfl⟩

end NormMyPy
